import Mathlib

/-!
Verification of the Urban Flooding Digital Twin core against its
natural-language specification.

The development shallowly embeds the two algorithmic cores of the repository:

* the hydrology / risk engine
  (`src/urban_flooding/domain/hydrology.py`,
   `src/urban_flooding/domain/simulation.py`, `dt/model.py`,
   `digital_twin/services/risk_algorithm.py`), and
* the spatial catchment resolver
  (`src/urban_flooding/spatial/spatial_utils.py`,
   `digital_twin/spatial/spatial_utils.py`).

Python floats are modelled as real numbers; the geometry library
(shapely / geopandas) is modelled by parameters supplying parsing,
bounds and containment, together with the soundness fact relating
containment to bounding boxes that the real library guarantees.
-/

namespace UrbanFlooding

/-- `q_runoff_m3s` from `urban_flooding/domain/hydrology.py` (the identical
definition is duplicated in `dt/model.py` and
`digital_twin/services/risk_algorithm.py`):
`return 0.278 * C * i_mmhr * A_km2`. -/
noncomputable def q_runoff_m3s (C i_mmhr A_km2 : ℝ) : ℝ :=
  0.278 * C * i_mmhr * A_km2

/-- `risk_from_loading` from `urban_flooding/domain/hydrology.py` (duplicated
in `dt/model.py` and `digital_twin/services/risk_algorithm.py`):
`return 1.0 / (1.0 + exp(-k * (L - 1.0)))`, default `k = 8.0`. -/
noncomputable def risk_from_loading (L : ℝ) (k : ℝ := 8.0) : ℝ :=
  1.0 / (1.0 + Real.exp (-k * (L - 1.0)))

/-- Python's `round(x, 3)`, as used on every numeric output of
`simulate_catchment`.  Modelled as rounding `1000 * x` to the nearest
integer and dividing back.  (Python breaks exact ties to even, Mathlib's
`round` breaks them upward; no statement below evaluates `round3` at an
exact tie, and every property proved here uses only monotonicity and the
half-unit error bound, which hold for either tie rule.) -/
noncomputable def round3 (x : ℝ) : ℝ :=
  ((round (1000 * x) : ℤ) : ℝ) / 1000

/-- One entry of the `series` list built by `simulate_catchment`:
`{"t": t, "i": i, "Qrunoff": round(Q,3), "L": round(L,3), "R": round(R,3)}`. -/
structure SimPoint where
  t : String
  i : ℝ
  Qrunoff : ℝ
  L : ℝ
  R : ℝ

/-- The dictionary returned by `simulate_catchment`:
`{"series": series, "max_risk": round(max_r, 3)}`. -/
structure SimResult where
  series : List SimPoint
  max_risk : ℝ

/-- A real number printed with three decimal places, i.e. an integer
multiple of `1/1000`; the image of `round3`. -/
def isThreeDecimal (x : ℝ) : Prop := ∃ n : ℤ, x = (n : ℝ) / 1000

/-- The shape contract of a simulation result for an input series of
length `n`: the output series has length `n`, `max_risk` is an upper bound
of the stored per-step risks, it is attained by some stored per-step risk
whenever the series is nonempty, and it is `0` when the series is empty —
i.e. `max_risk` is exactly the maximum of the `R` column (`0` for an empty
series). -/
def SeriesLengthAndPeak (out : SimResult) (n : ℕ) : Prop :=
  out.series.length = n
  ∧ (∀ p ∈ out.series, p.R ≤ out.max_risk)
  ∧ (out.series ≠ [] → ∃ p ∈ out.series, p.R = out.max_risk)
  ∧ (out.series = [] → out.max_risk = 0)

namespace Domain

/-!
Embedding of `simulate_catchment` from
`src/urban_flooding/domain/simulation.py`, whose loop body is duplicated
verbatim in `dt/model.py`:

```python
series = []
max_r = 0.0
for i, t in zip(rain_mmhr, timestamps_utc):
    Q = q_runoff_m3s(C, i, A_km2)
    L = Q / Qcap_m3s if Qcap_m3s > 0 else 1e6
    R = risk_from_loading(L)
    max_r = max(max_r, R)
    series.append({"t": t, "i": i, "Qrunoff": round(Q, 3),
                   "L": round(L, 3), "R": round(R, 3)})
return {"series": series, "max_risk": round(max_r, 3)}
```
-/

/-- `L = Q / Qcap_m3s if Qcap_m3s > 0 else 1e6`. -/
noncomputable def rawL (Qcap Q : ℝ) : ℝ :=
  if Qcap > 0 then Q / Qcap else 1e6

/-- The unrounded risk `R` computed at one time step with intensity `i`. -/
noncomputable def rawR (C A_km2 Qcap i : ℝ) : ℝ :=
  risk_from_loading (rawL Qcap (q_runoff_m3s C i A_km2))

/-- `simulate_catchment` of `urban_flooding/domain/simulation.py` /
`dt/model.py`: the `for ... in zip(...)` loop as a map (series) and a fold
(running maximum `max_r`, started at `0.0`). -/
noncomputable def simulate_catchment (rain_mmhr : List ℝ)
    (timestamps_utc : List String) (C A_km2 Qcap_m3s : ℝ) : SimResult :=
  let pairs := rain_mmhr.zip timestamps_utc
  { series := pairs.map (fun p =>
      { t := p.2
        i := p.1
        Qrunoff := round3 (q_runoff_m3s C p.1 A_km2)
        L := round3 (rawL Qcap_m3s (q_runoff_m3s C p.1 A_km2))
        R := round3 (rawR C A_km2 Qcap_m3s p.1) })
    max_risk := round3 (pairs.foldl
      (fun max_r p => max max_r (rawR C A_km2 Qcap_m3s p.1)) 0) }

end Domain

namespace RiskAlgorithm

/-!
Embedding of the adaptive-capacity variant of `simulate_catchment` from
`digital_twin/services/risk_algorithm.py` (tuning knobs `HEADROOM = 2.5`,
`CAP_BOOST_MAX = 50.0`, `USE_LOG_COMPRESSION = True`, `L_LOG_RANGE = 40.0`,
per-step steepness `k = 3.0`).
-/

def HEADROOM : ℝ := 2.5

def CAP_BOOST_MAX : ℝ := 50.0

def L_LOG_RANGE : ℝ := 40.0

/-- `_compress_L_for_risk`:
`if L <= 1.0: return L` else `1.0 + log1p(L - 1.0) / log(1.0 + L_LOG_RANGE)`
(`log1p(x) = log(1 + x)`). -/
noncomputable def compress_L_for_risk (L : ℝ) : ℝ :=
  if L ≤ 1.0 then L
  else 1.0 + Real.log (1 + (L - 1.0)) / Real.log (1.0 + L_LOG_RANGE)

/-- `i_target = max(rain_mmhr) * 1.0 if rain_mmhr else 2.0`. -/
noncomputable def i_target (rain_mmhr : List ℝ) : ℝ :=
  match rain_mmhr with
  | [] => 2.0
  | x :: xs => xs.foldl max x * 1.0

/-- The capacity boost factor `scale`: starts at `1.0`; when
`Qcap_m3s > 0 and Q_target > 0` and `required = Q_target / (Qcap_m3s *
HEADROOM) > 1.0`, it becomes `min(required, CAP_BOOST_MAX)`. -/
noncomputable def scale (C A_km2 Qcap_m3s : ℝ) (rain_mmhr : List ℝ) : ℝ :=
  let Q_target := q_runoff_m3s C (i_target rain_mmhr) A_km2
  if Qcap_m3s > 0 ∧ Q_target > 0 then
    let required := Q_target / (Qcap_m3s * HEADROOM)
    if required > 1.0 then min required CAP_BOOST_MAX else 1.0
  else 1.0

/-- `Qcap_used = max(Qcap_m3s * scale, 1e-6)  # avoid div-by-zero`. -/
noncomputable def Qcap_used (C A_km2 Qcap_m3s : ℝ) (rain_mmhr : List ℝ) : ℝ :=
  max (Qcap_m3s * scale C A_km2 Qcap_m3s rain_mmhr) 1e-6

/-- The unrounded per-step risk: `R = risk_from_loading(L_for_risk, k=3.0)`
with `L_for_risk = _compress_L_for_risk(Q / Qcap_used)`
(`USE_LOG_COMPRESSION` is `True`). -/
noncomputable def rawR (Qu C A_km2 i : ℝ) : ℝ :=
  risk_from_loading (compress_L_for_risk (q_runoff_m3s C i A_km2 / Qu)) 3.0

/-- `simulate_catchment` of `digital_twin/services/risk_algorithm.py`:
adaptive effective capacity, then the same `zip` loop building the series
and the running maximum, every emitted number passed through `round(_, 3)`
(the stored `L` is the raw load, the stored `R` is post-compression). -/
noncomputable def simulate_catchment (rain_mmhr : List ℝ)
    (timestamps_utc : List String) (C A_km2 Qcap_m3s : ℝ) : SimResult :=
  let Qu := Qcap_used C A_km2 Qcap_m3s rain_mmhr
  let pairs := rain_mmhr.zip timestamps_utc
  { series := pairs.map (fun p =>
      { t := p.2
        i := p.1
        Qrunoff := round3 (q_runoff_m3s C p.1 A_km2)
        L := round3 (q_runoff_m3s C p.1 A_km2 / Qu)
        R := round3 (rawR Qu C A_km2 p.1) })
    max_risk := round3 (pairs.foldl
      (fun max_r p => max max_r (rawR Qu C A_km2 p.1)) 0) }

end RiskAlgorithm

/-!
Spatial catchment resolution, from
`src/urban_flooding/spatial/spatial_utils.py` (duplicated verbatim at the
end of `digital_twin/spatial/spatial_utils.py`).  Coordinates and areas are
modelled as rationals.  The geometry library (shapely / geopandas) is
abstracted by a raw-geometry type `G` (a GeoJSON value), a parsed-shape
type `S`, a partial parser `shape : G → Option S` (`shapely.geometry.shape`,
`none` = the `except Exception: continue` path), a bounding box
`boundsOf : S → Bounds` (`geometry.bounds`) and a containment test
`contains : S → ℚ → ℚ → Bool` (`geometry.contains(Point(lon, lat))`).
-/

/-- An axis-aligned bounding box as produced by `geometry.bounds`
(`minx, miny, maxx, maxy`). -/
structure Bounds where
  minx : ℚ
  miny : ℚ
  maxx : ℚ
  maxy : ℚ
deriving DecidableEq

/-- A raw catchment record as handed to the resolver: the fields it
consults (`geometry`, `A_km2`) plus the identifier and the stored
`location.bounds` bounding box (present on bounding-box-only records in
the persistence schema; the resolver never reads it). -/
structure GeoRecord (G : Type) where
  catchment_id : String
  A_km2 : ℚ
  geometry : Option G
  bounds : Option Bounds
deriving DecidableEq

/-- A row of the GeoDataFrame built by `load_catchments_gdf`:
`{**c, 'geometry': shp}` — the original record together with its parsed
shapely geometry. -/
structure GdfRecord (G S : Type) where
  orig : GeoRecord G
  geometry : S
deriving DecidableEq

/-- `load_catchments_gdf`: keep each record whose `geometry` key is
present (`if not geom: continue`) and parses (`try: shp = shape(geom)
except Exception: continue`), pairing it with the parsed shape. -/
def load_catchments_gdf {G S : Type} (shape : G → Option S) :
    List (GeoRecord G) → List (GdfRecord G S)
  | [] => []
  | c :: cs =>
    match c.geometry with
    | none => load_catchments_gdf shape cs
    | some g =>
      match shape g with
      | none => load_catchments_gdf shape cs
      | some s => ⟨c, s⟩ :: load_catchments_gdf shape cs

/-- The record selected by `matches.sort_values(by='A_km2').iloc[0]`: a
match of minimal `A_km2`.  (Among equal areas pandas's default unstable
sort leaves the choice unspecified; this selection keeps the earliest
minimal record, and no property proved below depends on the tie order.) -/
def selectMinArea {G S : Type} :
    GdfRecord G S → List (GdfRecord G S) → GdfRecord G S
  | best, [] => best
  | best, r :: rs =>
    selectMinArea (if r.orig.A_km2 < best.orig.A_km2 then r else best) rs

/-- The bbox pre-filter predicate applied to `gdf.geometry.bounds`:
`row.minx <= lon <= row.maxx and row.miny <= lat <= row.maxy`. -/
def inBoundsRow {G S : Type} (boundsOf : S → Bounds) (lon lat : ℚ)
    (r : GdfRecord G S) : Bool :=
  decide ((boundsOf r.geometry).minx ≤ lon ∧ lon ≤ (boundsOf r.geometry).maxx
    ∧ (boundsOf r.geometry).miny ≤ lat ∧ lat ≤ (boundsOf r.geometry).maxy)

/-- `find_catchment_for_point`: build the GeoDataFrame, return `None` when
it is empty, pre-filter by bounding box, keep the rows whose geometry
contains the point, return `None` when no row is left, otherwise return
the smallest-area match as the original record (the code drops the shapely
geometry column and re-attaches the record's GeoJSON geometry). -/
def find_catchment_for_point {G S : Type} (shape : G → Option S)
    (boundsOf : S → Bounds) (contains : S → ℚ → ℚ → Bool)
    (catchments : List (GeoRecord G)) (lon lat : ℚ) : Option (GeoRecord G) :=
  let gdf := load_catchments_gdf shape catchments
  if gdf.isEmpty then none
  else
    let possible := gdf.filter (inBoundsRow boundsOf lon lat)
    let matchRows := possible.filter (fun r => contains r.geometry lon lat)
    match matchRows with
    | [] => none
    | m :: ms => some (selectMinArea m ms).orig

/-!
A concrete geometry instance used to exercise the parametrised resolver:
axis-aligned rectangle polygons (with shapely's interior-containment
semantics: `contains` is strict, the envelope is closed) plus a malformed
raw value on which parsing fails.
-/

/-- A raw GeoJSON value for tests: a rectangular polygon, or a value that
`shapely.geometry.shape` rejects. -/
inductive TestGeom : Type
  | rect (minx miny maxx maxy : ℚ)
  | malformed
deriving DecidableEq

/-- Parsing of `TestGeom`: rectangles parse to their bounds, `malformed`
raises (returns `none`). -/
def testShape : TestGeom → Option Bounds
  | .rect a b c d => some ⟨a, b, c, d⟩
  | .malformed => none

/-- `geometry.bounds` of a parsed rectangle. -/
def testBoundsOf : Bounds → Bounds := id

/-- `geometry.contains(Point(lon, lat))` for a rectangle: strictly inside
(shapely containment excludes the boundary). -/
def testContains (b : Bounds) (lon lat : ℚ) : Bool :=
  decide (b.minx < lon ∧ lon < b.maxx ∧ b.miny < lat ∧ lat < b.maxy)

/-- Fixture: catchment `A`, nominal area `1`, polygon `(0,0)–(10,10)`. -/
def recA : GeoRecord TestGeom :=
  ⟨"A", 1, some (TestGeom.rect 0 0 10 10), none⟩

/-- Fixture: catchment `B`, nominal area `2`, polygon `(20,20)–(30,30)`. -/
def recB : GeoRecord TestGeom :=
  ⟨"B", 2, some (TestGeom.rect 20 20 30 30), none⟩

/-- Fixture: a bounding-box-only record — no `geometry` key, only a stored
`location.bounds` box `(0,0)–(10,10)`. -/
def bboxOnlyRecord : GeoRecord TestGeom :=
  ⟨"bbox_only", 1, none, some ⟨0, 0, 10, 10⟩⟩

/-- Fixture: a record whose `geometry` value fails to parse. -/
def malformedRecord : GeoRecord TestGeom :=
  ⟨"bad_geom", 5, some TestGeom.malformed, none⟩

/-! ### Helper lemmas -/

/-- Normalised form of the logistic transform. -/
theorem risk_from_loading_def (L k : ℝ) :
    risk_from_loading L k = 1 / (1 + Real.exp (-k * (L - 1))) := by
  norm_num [risk_from_loading]

/-- The logistic risk is strictly positive. -/
theorem risk_from_loading_pos (L k : ℝ) : 0 < risk_from_loading L k := by
  rw [risk_from_loading_def]
  positivity

/-- The logistic risk is strictly below `1`. -/
theorem risk_from_loading_lt_one (L k : ℝ) : risk_from_loading L k < 1 := by
  rw [risk_from_loading_def]
  have h := Real.exp_pos (-k * (L - 1))
  rw [div_lt_one (by linarith)]
  linarith

/-- The logistic transform is strictly increasing in the loading for
positive steepness. -/
theorem risk_from_loading_strictMono {k : ℝ} (hk : 0 < k) {L1 L2 : ℝ}
    (h : L1 < L2) : risk_from_loading L1 k < risk_from_loading L2 k := by
  rw [risk_from_loading_def, risk_from_loading_def]
  have harg : -k * (L2 - 1) < -k * (L1 - 1) := by nlinarith
  have hexp : Real.exp (-k * (L2 - 1)) < Real.exp (-k * (L1 - 1)) :=
    Real.exp_lt_exp.mpr harg
  have h1 : (0 : ℝ) < 1 + Real.exp (-k * (L1 - 1)) := by
    have := Real.exp_pos (-k * (L1 - 1)); linarith
  have h2 : (0 : ℝ) < 1 + Real.exp (-k * (L2 - 1)) := by
    have := Real.exp_pos (-k * (L2 - 1)); linarith
  rw [div_lt_div_iff₀ h1 h2]
  nlinarith

/-- A large negative exponent makes the logistic risk at least
`2000/2001`: instance at the `1e6` sentinel loading with `k = 8`. -/
theorem risk_at_sentinel : (2000 : ℝ) / 2001 ≤ risk_from_loading 1e6 8 := by
  rw [risk_from_loading_def]
  have hband : Real.exp (-(8 : ℝ) * (1e6 - 1)) ≤ 1 / 2000 := by
    have h1 : ((7999992 : ℝ)) + 1 ≤ Real.exp 7999992 := Real.add_one_le_exp _
    have h2 : Real.exp (-(7999992 : ℝ)) = (Real.exp 7999992)⁻¹ := Real.exp_neg _
    have h3 : Real.exp (-(7999992 : ℝ)) ≤ (7999993 : ℝ)⁻¹ := by
      rw [h2]
      exact inv_anti₀ (by norm_num) (by linarith)
    have h4 : (-(8 : ℝ) * (1e6 - 1)) = -7999992 := by norm_num
    rw [h4]
    calc Real.exp (-(7999992 : ℝ)) ≤ (7999993 : ℝ)⁻¹ := h3
      _ ≤ 1 / 2000 := by norm_num
  have hpos : (0 : ℝ) < Real.exp (-(8 : ℝ) * (1e6 - 1)) := Real.exp_pos _
  have hden : (0 : ℝ) < 1 + Real.exp (-(8 : ℝ) * (1e6 - 1)) := by linarith
  rw [div_le_div_iff₀ (by norm_num) hden]
  nlinarith

/-- `round3` is monotone. -/
theorem round3_mono : Monotone round3 := by
  intro x y h
  unfold round3
  have : round (1000 * x) ≤ round (1000 * y) := by
    rw [round_eq, round_eq]
    exact Int.floor_le_floor (by linarith)
  have hc : ((round (1000 * x) : ℤ) : ℝ) ≤ ((round (1000 * y) : ℤ) : ℝ) := by
    exact_mod_cast this
  linarith

theorem round3_zero : round3 0 = 0 := by
  unfold round3
  norm_num

/-- Rounding to three decimals overshoots by at most half a unit in the
last place. -/
theorem round3_le (x : ℝ) : round3 x ≤ x + 1 / 2000 := by
  unfold round3
  rw [round_eq]
  have h := Int.floor_le (1000 * x + 1 / 2)
  have : ((⌊1000 * x + 1 / 2⌋ : ℤ) : ℝ) ≤ 1000 * x + 1 / 2 := h
  linarith

/-- Rounding to three decimals undershoots by less than half a unit in the
last place. -/
theorem lt_round3 (x : ℝ) : x - 1 / 2000 < round3 x := by
  unfold round3
  rw [round_eq]
  have h := Int.lt_floor_add_one (1000 * x + 1 / 2)
  have : 1000 * x + 1 / 2 < ((⌊1000 * x + 1 / 2⌋ : ℤ) : ℝ) + 1 := h
  linarith

/-- Every value of `round3` is an integer multiple of `1/1000`. -/
theorem round3_isThreeDecimal (x : ℝ) : isThreeDecimal (round3 x) :=
  ⟨round (1000 * x), rfl⟩

theorem round3_map_max (a b : ℝ) :
    round3 (max a b) = max (round3 a) (round3 b) :=
  round3_mono.map_max

/-- `round3` commutes with a running maximum over a list. -/
theorem foldl_max_round3 {α : Type} (f : α → ℝ) (l : List α) (a : ℝ) :
    round3 (l.foldl (fun m x => max m (f x)) a)
      = l.foldl (fun m x => max m (round3 (f x))) (round3 a) := by
  induction l generalizing a with
  | nil => rfl
  | cons x xs ih =>
    simp only [List.foldl_cons]
    rw [← round3_map_max, ih]

/-- The seed is below a `foldl max`. -/
theorem le_foldl_max_init {α : Type} [LinearOrder α] (l : List α) (a : α) :
    a ≤ l.foldl max a := by
  induction l generalizing a with
  | nil => exact le_refl _
  | cons x xs ih =>
    simp only [List.foldl_cons]
    exact le_trans (le_max_left a x) (ih (max a x))

/-- Every member is below a `foldl max`. -/
theorem le_foldl_max_of_mem {α : Type} [LinearOrder α] {x : α} {l : List α}
    (hx : x ∈ l) (a : α) : x ≤ l.foldl max a := by
  induction l generalizing a with
  | nil => cases hx
  | cons y ys ih =>
    simp only [List.foldl_cons]
    rcases List.mem_cons.mp hx with h | h
    · subst h
      exact le_trans (le_max_right a x) (le_foldl_max_init ys (max a x))
    · exact ih h (max a y)

/-- A `foldl max` is bounded by any common upper bound. -/
theorem foldl_max_le {α : Type} [LinearOrder α] {l : List α} {a c : α}
    (ha : a ≤ c) (h : ∀ x ∈ l, x ≤ c) : l.foldl max a ≤ c := by
  induction l generalizing a with
  | nil => exact ha
  | cons x xs ih =>
    simp only [List.foldl_cons]
    exact ih (max_le ha (h x (List.mem_cons_self x xs))) fun y hy =>
      h y (List.mem_cons_of_mem x hy)

/-- A `foldl max` is the seed or one of the members. -/
theorem foldl_max_eq_or_mem {α : Type} [LinearOrder α] (l : List α) (a : α) :
    l.foldl max a = a ∨ l.foldl max a ∈ l := by
  induction l generalizing a with
  | nil => exact Or.inl rfl
  | cons x xs ih =>
    simp only [List.foldl_cons]
    rcases ih (max a x) with h | h
    · rcases max_choice a x with hm | hm
      · exact Or.inl (by rw [h, hm])
      · exact Or.inr (by rw [h, hm]; exact List.mem_cons_self x xs)
    · exact Or.inr (List.mem_cons_of_mem x h)

/-- Over a nonempty list whose members dominate the seed, a `foldl max`
is attained by a member. -/
theorem foldl_max_mem_of_ne_nil {α : Type} [LinearOrder α] {l : List α}
    (h : l ≠ []) {a : α} (ha : ∀ x ∈ l, a ≤ x) : l.foldl max a ∈ l := by
  rcases foldl_max_eq_or_mem l a with heq | hmem
  · cases l with
    | nil => exact absurd rfl h
    | cons x xs =>
      have h1 : x ≤ (x :: xs).foldl max a :=
        le_foldl_max_of_mem (List.mem_cons_self x xs) a
      have h2 : a ≤ x := ha x (List.mem_cons_self x xs)
      rw [heq] at h1
      have hax : a = x := le_antisymm h2 h1
      rw [heq, hax]
      exact List.mem_cons_self x xs
  · exact hmem

/-- The risk column of the basic simulation series: each stored `R` is the
rounding of the raw per-step risk. -/
theorem Domain.series_map_R_basic (rain : List ℝ) (ts : List String)
    (C A Qcap : ℝ) :
    ((Domain.simulate_catchment rain ts C A Qcap).series.map SimPoint.R)
      = (rain.zip ts).map (fun p => round3 (Domain.rawR C A Qcap p.1)) := by
  simp only [Domain.simulate_catchment, List.map_map]
  rfl

/-- The basic simulation's `max_risk` is the running maximum of the rounded
risk column. -/
theorem Domain.max_risk_eq_foldl_basic (rain : List ℝ) (ts : List String)
    (C A Qcap : ℝ) :
    (Domain.simulate_catchment rain ts C A Qcap).max_risk
      = ((Domain.simulate_catchment rain ts C A Qcap).series.map
          SimPoint.R).foldl max 0 := by
  rw [Domain.series_map_R_basic, List.foldl_map]
  show round3 ((rain.zip ts).foldl
      (fun max_r p => max max_r (Domain.rawR C A Qcap p.1)) 0) = _
  rw [foldl_max_round3, round3_zero]

/-- The risk column of the adaptive simulation series. -/
theorem RiskAlgorithm.series_map_R_adaptive (rain : List ℝ) (ts : List String)
    (C A Qcap : ℝ) :
    ((RiskAlgorithm.simulate_catchment rain ts C A Qcap).series.map
        SimPoint.R)
      = (rain.zip ts).map (fun p =>
          round3 (RiskAlgorithm.rawR
            (RiskAlgorithm.Qcap_used C A Qcap rain) C A p.1)) := by
  simp only [RiskAlgorithm.simulate_catchment, List.map_map]
  rfl

/-- The adaptive simulation's `max_risk` is the running maximum of the
rounded risk column. -/
theorem RiskAlgorithm.max_risk_eq_foldl_adaptive (rain : List ℝ) (ts : List String)
    (C A Qcap : ℝ) :
    (RiskAlgorithm.simulate_catchment rain ts C A Qcap).max_risk
      = ((RiskAlgorithm.simulate_catchment rain ts C A Qcap).series.map
          SimPoint.R).foldl max 0 := by
  rw [RiskAlgorithm.series_map_R_adaptive, List.foldl_map]
  show round3 ((rain.zip ts).foldl
      (fun max_r p => max max_r (RiskAlgorithm.rawR
        (RiskAlgorithm.Qcap_used C A Qcap rain) C A p.1)) 0) = _
  rw [foldl_max_round3, round3_zero]

/-- The stored risk column of the basic simulation is nonnegative. -/
theorem Domain.series_R_nonneg_basic (rain : List ℝ) (ts : List String)
    (C A Qcap : ℝ) :
    ∀ p ∈ (Domain.simulate_catchment rain ts C A Qcap).series, 0 ≤ p.R := by
  intro p hp
  simp only [Domain.simulate_catchment, List.mem_map] at hp
  obtain ⟨q, _, rfl⟩ := hp
  have h0 : (0 : ℝ) ≤ Domain.rawR C A Qcap q.1 :=
    (risk_from_loading_pos _ _).le
  have := round3_mono h0
  rw [round3_zero] at this
  exact this

/-- The stored risk column of the adaptive simulation is nonnegative. -/
theorem RiskAlgorithm.series_R_nonneg_adaptive (rain : List ℝ) (ts : List String)
    (C A Qcap : ℝ) :
    ∀ p ∈ (RiskAlgorithm.simulate_catchment rain ts C A Qcap).series,
      0 ≤ p.R := by
  intro p hp
  simp only [RiskAlgorithm.simulate_catchment, List.mem_map] at hp
  obtain ⟨q, _, rfl⟩ := hp
  have h0 : (0 : ℝ) ≤ RiskAlgorithm.rawR
      (RiskAlgorithm.Qcap_used C A Qcap rain) C A q.1 :=
    (risk_from_loading_pos _ _).le
  have := round3_mono h0
  rw [round3_zero] at this
  exact this

/-- A result whose `max_risk` is the `foldl max 0` of its nonnegative risk
column satisfies the peak part of the shape contract. -/
theorem peak_spec_of_foldl (out : SimResult)
    (hmax : out.max_risk = (out.series.map SimPoint.R).foldl max 0)
    (hnn : ∀ p ∈ out.series, 0 ≤ p.R) :
    (∀ p ∈ out.series, p.R ≤ out.max_risk)
    ∧ (out.series ≠ [] → ∃ p ∈ out.series, p.R = out.max_risk)
    ∧ (out.series = [] → out.max_risk = 0) := by
  refine ⟨?_, ?_, ?_⟩
  · intro p hp
    rw [hmax]
    exact le_foldl_max_of_mem (List.mem_map_of_mem SimPoint.R hp) 0
  · intro hne
    have hmapne : out.series.map SimPoint.R ≠ [] := by
      simpa using hne
    have hnn2 : ∀ x ∈ out.series.map SimPoint.R, (0 : ℝ) ≤ x := by
      intro x hx
      obtain ⟨p, hp, rfl⟩ := List.mem_map.mp hx
      exact hnn p hp
    have hmem := foldl_max_mem_of_ne_nil hmapne hnn2
    obtain ⟨p, hp, hpr⟩ := List.mem_map.mp hmem
    exact ⟨p, hp, by rw [hmax, hpr]⟩
  · intro hnil
    rw [hmax, hnil]
    rfl

/-- **C1.** For matching-length inputs, each `simulate_catchment` variant
returns a series of the same length as the rainfall series, with
`max_risk` equal to the maximum of the per-step risks stored in the
returned series, and for an empty input series the returned series is
empty and `max_risk` is `0.0`. -/
theorem C1_simulate_length_and_peak (rain : List ℝ) (ts : List String)
    (C A Qcap : ℝ) (h : rain.length = ts.length) :
    SeriesLengthAndPeak (Domain.simulate_catchment rain ts C A Qcap)
        rain.length
    ∧ SeriesLengthAndPeak (RiskAlgorithm.simulate_catchment rain ts C A Qcap)
        rain.length := by
  constructor
  · have hlen : (Domain.simulate_catchment rain ts C A Qcap).series.length
        = rain.length := by
      simp [Domain.simulate_catchment, List.length_zip, h]
    have hpk := peak_spec_of_foldl _
      (Domain.max_risk_eq_foldl_basic rain ts C A Qcap)
      (Domain.series_R_nonneg_basic rain ts C A Qcap)
    exact ⟨hlen, hpk.1, hpk.2.1, hpk.2.2⟩
  · have hlen : (RiskAlgorithm.simulate_catchment
        rain ts C A Qcap).series.length = rain.length := by
      simp [RiskAlgorithm.simulate_catchment, List.length_zip, h]
    have hpk := peak_spec_of_foldl _
      (RiskAlgorithm.max_risk_eq_foldl_adaptive rain ts C A Qcap)
      (RiskAlgorithm.series_R_nonneg_adaptive rain ts C A Qcap)
    exact ⟨hlen, hpk.1, hpk.2.1, hpk.2.2⟩

/-- Witness for C1 at the concrete input `rain = [5]`, `ts = ["t0"]`,
`C = 0.6`, `A = 10`, `Qcap = 15`. -/
theorem C1_simulate_length_and_peak_witness :
    [(5 : ℝ)].length = ["t0"].length
    ∧ (SeriesLengthAndPeak
          (Domain.simulate_catchment [(5 : ℝ)] ["t0"] 0.6 10 15)
          [(5 : ℝ)].length
        ∧ SeriesLengthAndPeak
          (RiskAlgorithm.simulate_catchment [(5 : ℝ)] ["t0"] 0.6 10 15)
          [(5 : ℝ)].length) :=
  ⟨rfl, C1_simulate_length_and_peak [(5 : ℝ)] ["t0"] 0.6 10 15 rfl⟩

/-- **C2.** The logistic risk transform returns exactly `0.5` at loading
ratio `1.0` for every steepness, and is exactly the logistic formula. -/
theorem C2_risk_midpoint_and_formula :
    (∀ k : ℝ, risk_from_loading 1.0 k = 0.5)
    ∧ ∀ L k : ℝ, risk_from_loading L k
        = 1 / (1 + Real.exp (-k * (L - 1))) := by
  constructor
  · intro k
    rw [risk_from_loading_def]
    have h : -k * ((1.0 : ℝ) - 1) = 0 := by norm_num
    rw [h, Real.exp_zero]
    norm_num
  · exact risk_from_loading_def

/-- **C3.** The runoff estimate is exactly the Rational Method formula
`0.278 * C * i * A`, and in particular `q_runoff_m3s 0.8 25.0 1.5 = 8.34`. -/
theorem C3_runoff_formula :
    (∀ C i A : ℝ, q_runoff_m3s C i A = 0.278 * C * i * A)
    ∧ q_runoff_m3s 0.8 25.0 1.5 = 8.34 := by
  refine ⟨fun C i A => rfl, ?_⟩
  unfold q_runoff_m3s
  norm_num

/-- **C4.** For fixed steepness `k > 0` the risk transform is strictly
increasing on loading ratios `0 ≤ r1 < r2`. -/
theorem C4_risk_strictly_monotone (k r1 r2 : ℝ) (hk : 0 < k) (h1 : 0 ≤ r1)
    (h12 : r1 < r2) : risk_from_loading r1 k < risk_from_loading r2 k :=
  risk_from_loading_strictMono hk h12

/-- Witness for C4 at `k = 8`, `r1 = 0`, `r2 = 2`. -/
theorem C4_risk_strictly_monotone_witness :
    0 < (8 : ℝ) ∧ (0 : ℝ) ≤ 0 ∧ (0 : ℝ) < 2
    ∧ risk_from_loading 0 8 < risk_from_loading 2 8 :=
  ⟨by norm_num, le_refl 0, by norm_num,
    C4_risk_strictly_monotone 8 0 2 (by norm_num) (le_refl 0) (by norm_num)⟩

/-- With zero capacity the basic per-step risk is the sigmoid at the `1e6`
sentinel, which is at least `2000/2001`. -/
theorem Domain.rawR_zero_cap (C A i : ℝ) :
    (2000 : ℝ) / 2001 ≤ Domain.rawR C A 0 i := by
  unfold Domain.rawR Domain.rawL
  rw [if_neg (lt_irrefl (0 : ℝ))]
  rw [show (8.0 : ℝ) = 8 by norm_num]
  exact risk_at_sentinel

/-- **C5 (amended).** Neither `simulate_catchment` variant validates its
input: mismatched series lengths are silently zipped down to the shorter
length (the output series has length `min len(rain) len(timestamps)`), and
a non-positive area is accepted without any error path. -/
theorem C5_silent_truncation (rain : List ℝ) (ts : List String)
    (C A Qcap : ℝ) :
    (Domain.simulate_catchment rain ts C A Qcap).series.length
        = min rain.length ts.length
    ∧ (RiskAlgorithm.simulate_catchment rain ts C A Qcap).series.length
        = min rain.length ts.length := by
  constructor
  · simp [Domain.simulate_catchment, List.length_zip]
  · simp [RiskAlgorithm.simulate_catchment, List.length_zip]

/-- Counterexample to C5 as stated: with a two-element rainfall list and
a one-element timestamp list, `simulate_catchment` does not fail — it
silently truncates to one step; and with a negative area it likewise
returns a fully-formed result. -/
theorem C5_counterexample :
    (Domain.simulate_catchment [(10 : ℝ), 20] ["t0"] 0.5 1.0 1.0).series.length
        = 1
    ∧ (Domain.simulate_catchment [(10 : ℝ)] ["t0"] 0.5 (-1.0) 1.0).series.length
        = 1 := by
  constructor <;> rfl

/-- **C6 (amended).** The basic engine (`dt/model.py`,
`urban_flooding/domain/simulation.py`) substitutes the sentinel loading
`1e6` whenever capacity is not positive, and with `Qcap = 0`, matching
lengths, and a rainfall series containing a positive intensity (`C > 0`,
`A > 0`) it returns `max_risk > 0.99`; the adaptive engine
(`risk_algorithm.py`) floors its effective capacity at `1e-6`, so no
division by zero occurs there either. -/
theorem C6_zero_capacity_amended (rain : List ℝ) (ts : List String)
    (C A : ℝ) (h : rain.length = ts.length) (hi : ∃ i ∈ rain, 0 < i)
    (hC : 0 < C) (hA : 0 < A) :
    (∀ Q : ℝ, Domain.rawL 0 Q = 1e6)
    ∧ 0.99 < (Domain.simulate_catchment rain ts C A 0).max_risk
    ∧ ∀ (C' A' Qcap' : ℝ) (rain' : List ℝ),
        0 < RiskAlgorithm.Qcap_used C' A' Qcap' rain' := by
  refine ⟨?_, ?_, ?_⟩
  · intro Q
    unfold Domain.rawL
    rw [if_neg (lt_irrefl (0 : ℝ))]
  · obtain ⟨i0, hi0, _⟩ := hi
    have hrne : rain ≠ [] := by rintro rfl; cases hi0
    have hlen : (rain.zip ts).length = rain.length := by
      rw [List.length_zip, ← h, min_self]
    have hzne : rain.zip ts ≠ [] := by
      intro hnil
      rw [hnil] at hlen
      exact hrne (List.length_eq_zero.mp hlen.symm)
    obtain ⟨p0, hp0⟩ := List.exists_mem_of_ne_nil _ hzne
    have hdef : (Domain.simulate_catchment rain ts C A 0).max_risk
        = round3 ((rain.zip ts).foldl
            (fun m p => max m (Domain.rawR C A 0 p.1)) 0) := rfl
    have hmem : Domain.rawR C A 0 p0.1
        ∈ (rain.zip ts).map (fun p => Domain.rawR C A 0 p.1) :=
      List.mem_map_of_mem _ hp0
    have hge : Domain.rawR C A 0 p0.1
        ≤ (rain.zip ts).foldl (fun m p => max m (Domain.rawR C A 0 p.1)) 0 := by
      rw [← List.foldl_map]
      exact le_foldl_max_of_mem hmem 0
    have hRv : (2000 : ℝ) / 2001 ≤ Domain.rawR C A 0 p0.1 :=
      Domain.rawR_zero_cap C A p0.1
    have hround := lt_round3
      ((rain.zip ts).foldl (fun m p => max m (Domain.rawR C A 0 p.1)) 0)
    have hnum : (0.99 : ℝ) < 2000 / 2001 - 1 / 2000 := by norm_num
    rw [hdef]
    linarith
  · intro C' A' Qcap' rain'
    exact lt_of_lt_of_le (by norm_num) (le_max_right _ _)

/-- Witness for C6 (amended) at the repository's own zero-capacity test
input: `rain = [5,5,5]`, three timestamps, `C = 0.9`, `A = 1.2`. -/
theorem C6_zero_capacity_amended_witness :
    [(5 : ℝ), 5, 5].length = ["t0", "t1", "t2"].length
    ∧ (∃ i ∈ [(5 : ℝ), 5, 5], 0 < i)
    ∧ (0 : ℝ) < 0.9 ∧ (0 : ℝ) < 1.2
    ∧ ((∀ Q : ℝ, Domain.rawL 0 Q = 1e6)
        ∧ 0.99 < (Domain.simulate_catchment [(5 : ℝ), 5, 5]
            ["t0", "t1", "t2"] 0.9 1.2 0).max_risk
        ∧ ∀ (C' A' Qcap' : ℝ) (rain' : List ℝ),
            0 < RiskAlgorithm.Qcap_used C' A' Qcap' rain') :=
  ⟨rfl, ⟨5, by simp, by norm_num⟩, by norm_num, by norm_num,
    C6_zero_capacity_amended [(5 : ℝ), 5, 5] ["t0", "t1", "t2"] 0.9 1.2 rfl
      ⟨5, by simp, by norm_num⟩ (by norm_num) (by norm_num)⟩

/-- Counterexample to C6 as stated: the adaptive `simulate_catchment` of
`risk_algorithm.py`, run with `Qcap_m3s = 0.0` on a series with one
strictly positive intensity (`C > 0`, `A > 0`), returns
`max_risk < 0.99` — the capacity floor `1e-6` together with log
compression and `k = 3` does not saturate the risk for small discharges. -/
theorem C6_counterexample :
    (RiskAlgorithm.simulate_catchment [(1 : ℝ) / 1000] ["t0"]
        (1 / 100) (1 / 1000) 0).max_risk < 0.99 := by
  have hQu : RiskAlgorithm.Qcap_used (1 / 100) (1 / 1000) 0 [(1 : ℝ) / 1000]
      = 1e-6 := by
    unfold RiskAlgorithm.Qcap_used
    rw [zero_mul]
    exact max_eq_right (by norm_num)
  have hdef : (RiskAlgorithm.simulate_catchment [(1 : ℝ) / 1000] ["t0"]
      (1 / 100) (1 / 1000) 0).max_risk
      = round3 (max 0 (RiskAlgorithm.rawR
          (RiskAlgorithm.Qcap_used (1 / 100) (1 / 1000) 0 [(1 : ℝ) / 1000])
          (1 / 100) (1 / 1000) ((1 : ℝ) / 1000))) := rfl
  have hL : q_runoff_m3s (1 / 100) ((1 : ℝ) / 1000) (1 / 1000) / (1e-6 : ℝ)
      = 0.00278 := by
    unfold q_runoff_m3s
    norm_num
  have hcomp : RiskAlgorithm.compress_L_for_risk (0.00278 : ℝ) = 0.00278 := by
    unfold RiskAlgorithm.compress_L_for_risk
    rw [if_pos (by norm_num)]
  have hrisk : risk_from_loading (0.00278 : ℝ) 3.0 ≤ 0.21 := by
    rw [risk_from_loading_def]
    have harg : -(3.0 : ℝ) * ((0.00278 : ℝ) - 1) = 2.99166 := by norm_num
    rw [harg]
    have hexp : (3.99166 : ℝ) ≤ Real.exp 2.99166 := by
      have := Real.add_one_le_exp (2.99166 : ℝ)
      linarith
    have hpos : (0 : ℝ) < 1 + Real.exp 2.99166 := by positivity
    rw [div_le_iff₀ hpos]
    nlinarith
  have hR : RiskAlgorithm.rawR (1e-6) (1 / 100) (1 / 1000) ((1 : ℝ) / 1000)
      ≤ 0.21 := by
    unfold RiskAlgorithm.rawR
    rw [hL, hcomp]
    exact hrisk
  have h0 : (0 : ℝ)
      ≤ RiskAlgorithm.rawR 1e-6 (1 / 100) (1 / 1000) ((1 : ℝ) / 1000) :=
    (risk_from_loading_pos _ _).le
  rw [hdef, hQu, max_eq_right h0]
  have hub := round3_le
    (RiskAlgorithm.rawR 1e-6 (1 / 100) (1 / 1000) ((1 : ℝ) / 1000))
  have hnum : (0.21 : ℝ) + 1 / 2000 < 0.99 := by norm_num
  linarith

/-- **C10.** Every numeric value emitted by either `simulate_catchment`
variant — each point's `Qrunoff`, `L` and `R`, and the top-level
`max_risk` — is the three-decimal rounding of the corresponding raw value
(hence an integer multiple of `1/1000`), and `max_risk` equals the running
maximum of the *rounded* per-step risks stored in the series. -/
theorem C10_rounded_outputs (rain : List ℝ) (ts : List String)
    (C A Qcap : ℝ) :
    ((∀ p ∈ (Domain.simulate_catchment rain ts C A Qcap).series,
        p.Qrunoff = round3 (q_runoff_m3s C p.i A)
        ∧ p.L = round3 (Domain.rawL Qcap (q_runoff_m3s C p.i A))
        ∧ p.R = round3 (Domain.rawR C A Qcap p.i)
        ∧ isThreeDecimal p.Qrunoff ∧ isThreeDecimal p.L ∧ isThreeDecimal p.R)
      ∧ isThreeDecimal (Domain.simulate_catchment rain ts C A Qcap).max_risk
      ∧ (Domain.simulate_catchment rain ts C A Qcap).max_risk
          = ((Domain.simulate_catchment rain ts C A Qcap).series.map
              SimPoint.R).foldl max 0)
    ∧ ((∀ p ∈ (RiskAlgorithm.simulate_catchment rain ts C A Qcap).series,
        p.Qrunoff = round3 (q_runoff_m3s C p.i A)
        ∧ p.L = round3 (q_runoff_m3s C p.i A
            / RiskAlgorithm.Qcap_used C A Qcap rain)
        ∧ p.R = round3 (RiskAlgorithm.rawR
            (RiskAlgorithm.Qcap_used C A Qcap rain) C A p.i)
        ∧ isThreeDecimal p.Qrunoff ∧ isThreeDecimal p.L ∧ isThreeDecimal p.R)
      ∧ isThreeDecimal
          (RiskAlgorithm.simulate_catchment rain ts C A Qcap).max_risk
      ∧ (RiskAlgorithm.simulate_catchment rain ts C A Qcap).max_risk
          = ((RiskAlgorithm.simulate_catchment rain ts C A Qcap).series.map
              SimPoint.R).foldl max 0) := by
  constructor
  · refine ⟨?_, ?_, Domain.max_risk_eq_foldl_basic rain ts C A Qcap⟩
    · intro p hp
      simp only [Domain.simulate_catchment, List.mem_map] at hp
      obtain ⟨q, _, rfl⟩ := hp
      exact ⟨rfl, rfl, rfl, round3_isThreeDecimal _, round3_isThreeDecimal _,
        round3_isThreeDecimal _⟩
    · exact round3_isThreeDecimal _
  · refine ⟨?_, ?_, RiskAlgorithm.max_risk_eq_foldl_adaptive rain ts C A Qcap⟩
    · intro p hp
      simp only [RiskAlgorithm.simulate_catchment, List.mem_map] at hp
      obtain ⟨q, _, rfl⟩ := hp
      exact ⟨rfl, rfl, rfl, round3_isThreeDecimal _, round3_isThreeDecimal _,
        round3_isThreeDecimal _⟩
    · exact round3_isThreeDecimal _

/-! ### Spatial resolver lemmas -/

/-- Unfolding of `find_catchment_for_point` into its filter pipeline (the
`gdf.empty` early return coincides with the empty-matches return). -/
theorem find_catchment_for_point_eq {G S : Type} (shape : G → Option S)
    (boundsOf : S → Bounds) (contains : S → ℚ → ℚ → Bool)
    (cs : List (GeoRecord G)) (lon lat : ℚ) :
    find_catchment_for_point shape boundsOf contains cs lon lat
      = match ((load_catchments_gdf shape cs).filter
            (inBoundsRow boundsOf lon lat)).filter
            (fun r => contains r.geometry lon lat) with
        | [] => none
        | m :: ms => some (selectMinArea m ms).orig := by
  unfold find_catchment_for_point
  cases hgdf : load_catchments_gdf shape cs with
  | nil => rfl
  | cons a as => rfl

/-- A record whose geometry is absent or fails to parse contributes
nothing to the GeoDataFrame. -/
theorem load_catchments_gdf_cons_skip {G S : Type} (shape : G → Option S)
    (c : GeoRecord G) (cs : List (GeoRecord G))
    (h : c.geometry.bind shape = none) :
    load_catchments_gdf shape (c :: cs) = load_catchments_gdf shape cs := by
  cases hg : c.geometry with
  | none => simp only [load_catchments_gdf, hg]
  | some g =>
    have hs : shape g = none := by
      rw [hg] at h
      simpa using h
    simp only [load_catchments_gdf, hg, hs]

/-- If every record lacks usable geometry the GeoDataFrame is empty. -/
theorem load_catchments_gdf_eq_nil {G S : Type} (shape : G → Option S)
    (cs : List (GeoRecord G)) (h : ∀ r ∈ cs, r.geometry = none) :
    load_catchments_gdf shape cs = ([] : List (GdfRecord G S)) := by
  induction cs with
  | nil => rfl
  | cons c cs ih =>
    rw [load_catchments_gdf_cons_skip shape c cs
      (by rw [h c (List.mem_cons_self c cs)]; rfl)]
    exact ih fun r hr => h r (List.mem_cons_of_mem c hr)

/-- `selectMinArea` picks one of the candidate rows. -/
theorem selectMinArea_mem {G S : Type} (b : GdfRecord G S)
    (l : List (GdfRecord G S)) : selectMinArea b l ∈ b :: l := by
  induction l generalizing b with
  | nil => exact List.mem_cons_self b []
  | cons r rs ih =>
    have h := ih (if r.orig.A_km2 < b.orig.A_km2 then r else b)
    have hstep : selectMinArea b (r :: rs)
        = selectMinArea (if r.orig.A_km2 < b.orig.A_km2 then r else b) rs :=
      rfl
    rw [hstep]
    rcases List.mem_cons.mp h with h1 | h1
    · rw [h1]
      split_ifs
      · exact List.mem_cons_of_mem b (List.mem_cons_self r rs)
      · exact List.mem_cons_self b (r :: rs)
    · exact List.mem_cons_of_mem b (List.mem_cons_of_mem r h1)

/-- `selectMinArea` picks a row of minimal `A_km2` among the candidates. -/
theorem selectMinArea_le {G S : Type} (b : GdfRecord G S)
    (l : List (GdfRecord G S)) :
    ∀ x ∈ b :: l, (selectMinArea b l).orig.A_km2 ≤ x.orig.A_km2 := by
  induction l generalizing b with
  | nil =>
    intro x hx
    rcases List.mem_cons.mp hx with h | h
    · rw [h]
      exact le_rfl
    · cases h
  | cons r rs ih =>
    intro x hx
    have hstep : selectMinArea b (r :: rs)
        = selectMinArea (if r.orig.A_km2 < b.orig.A_km2 then r else b) rs :=
      rfl
    rw [hstep]
    have hb : (if r.orig.A_km2 < b.orig.A_km2 then r else b).orig.A_km2
        ≤ b.orig.A_km2 := by
      split_ifs with hc
      · exact le_of_lt hc
      · exact le_rfl
    have hr : (if r.orig.A_km2 < b.orig.A_km2 then r else b).orig.A_km2
        ≤ r.orig.A_km2 := by
      split_ifs with hc
      · exact le_rfl
      · exact le_of_not_lt hc
    have hsel : (selectMinArea
          (if r.orig.A_km2 < b.orig.A_km2 then r else b) rs).orig.A_km2
        ≤ (if r.orig.A_km2 < b.orig.A_km2 then r else b).orig.A_km2 :=
      ih _ _ (List.mem_cons_self _ rs)
    rcases List.mem_cons.mp hx with h1 | h1
    · rw [h1]
      exact le_trans hsel hb
    · rcases List.mem_cons.mp h1 with h2 | h2
      · rw [h2]
        exact le_trans hsel hr
      · exact ih _ x (List.mem_cons_of_mem _ h2)

/-- The rectangle containment fixture is sound for the bbox pre-filter:
strict interior membership implies envelope membership. -/
theorem testContains_sound (s : Bounds) (lon lat : ℚ)
    (h : testContains s lon lat = true) :
    (testBoundsOf s).minx ≤ lon ∧ lon ≤ (testBoundsOf s).maxx
      ∧ (testBoundsOf s).miny ≤ lat ∧ lat ≤ (testBoundsOf s).maxy := by
  have h2 := of_decide_eq_true h
  obtain ⟨h1, h2, h3, h4⟩ := h2
  exact ⟨le_of_lt h1, le_of_lt h2, le_of_lt h3, le_of_lt h4⟩

/-- **C7.** Provided the geometry library's containment is sound for its
own bounding boxes (a point contained in a geometry lies in its
envelope; true of shapely), `find_catchment_for_point`:
(i) when some loaded (full-geometry) record contains the point, returns a
containing record of minimal nominal area `A_km2` among all containing
records; (ii) in particular when exactly one loaded record contains the
point it returns that record; (iii) when no loaded record contains the
point it returns `none`. -/
theorem C7_resolver_polygon_match {G S : Type} (shape : G → Option S)
    (boundsOf : S → Bounds) (contains : S → ℚ → ℚ → Bool)
    (h_sound : ∀ (s : S) (lon lat : ℚ), contains s lon lat = true →
      ((boundsOf s).minx ≤ lon ∧ lon ≤ (boundsOf s).maxx
        ∧ (boundsOf s).miny ≤ lat ∧ lat ≤ (boundsOf s).maxy))
    (cs : List (GeoRecord G)) (lon lat : ℚ) :
    ((∃ r ∈ load_catchments_gdf shape cs,
        contains r.geometry lon lat = true) →
      ∃ r ∈ load_catchments_gdf shape cs,
        contains r.geometry lon lat = true
        ∧ find_catchment_for_point shape boundsOf contains cs lon lat
            = some r.orig
        ∧ ∀ r2 ∈ load_catchments_gdf shape cs,
            contains r2.geometry lon lat = true →
              r.orig.A_km2 ≤ r2.orig.A_km2)
    ∧ (∀ r0 ∈ load_catchments_gdf shape cs,
        contains r0.geometry lon lat = true →
        (∀ r2 ∈ load_catchments_gdf shape cs,
          contains r2.geometry lon lat = true → r2 = r0) →
        find_catchment_for_point shape boundsOf contains cs lon lat
          = some r0.orig)
    ∧ ((∀ r ∈ load_catchments_gdf shape cs,
          contains r.geometry lon lat = false) →
        find_catchment_for_point shape boundsOf contains cs lon lat
          = none) := by
  have hmm : ∀ x : GdfRecord G S,
      x ∈ ((load_catchments_gdf shape cs).filter
            (inBoundsRow boundsOf lon lat)).filter
            (fun r => contains r.geometry lon lat)
        ↔ x ∈ load_catchments_gdf shape cs
            ∧ contains x.geometry lon lat = true := by
    intro x
    constructor
    · intro hx
      have h1 := List.mem_filter.mp hx
      exact ⟨(List.mem_filter.mp h1.1).1, h1.2⟩
    · rintro ⟨hxg, hxc⟩
      refine List.mem_filter.mpr ⟨List.mem_filter.mpr ⟨hxg, ?_⟩, hxc⟩
      unfold inBoundsRow
      exact decide_eq_true (h_sound x.geometry lon lat hxc)
  have key : (∃ r ∈ load_catchments_gdf shape cs,
      contains r.geometry lon lat = true) →
      ∃ r ∈ load_catchments_gdf shape cs,
        contains r.geometry lon lat = true
        ∧ find_catchment_for_point shape boundsOf contains cs lon lat
            = some r.orig
        ∧ ∀ r2 ∈ load_catchments_gdf shape cs,
            contains r2.geometry lon lat = true →
              r.orig.A_km2 ≤ r2.orig.A_km2 := by
    rintro ⟨r0, hr0, hc0⟩
    have hr0m := (hmm r0).mpr ⟨hr0, hc0⟩
    cases hm : ((load_catchments_gdf shape cs).filter
        (inBoundsRow boundsOf lon lat)).filter
        (fun r => contains r.geometry lon lat) with
    | nil =>
      rw [hm] at hr0m
      cases hr0m
    | cons m ms =>
      have hsel := selectMinArea_mem m ms
      rw [← hm] at hsel
      have hselg := (hmm _).mp hsel
      refine ⟨selectMinArea m ms, hselg.1, hselg.2, ?_, ?_⟩
      · rw [find_catchment_for_point_eq, hm]
      · intro r2 hr2 hc2
        have hr2m := (hmm r2).mpr ⟨hr2, hc2⟩
        rw [hm] at hr2m
        exact selectMinArea_le m ms r2 hr2m
  refine ⟨key, ?_, ?_⟩
  · intro r0 hr0 hc0 huniq
    obtain ⟨r, hrg, hrc, hfind, _⟩ := key ⟨r0, hr0, hc0⟩
    rw [hfind, huniq r hrg hrc]
  · intro hall
    have hnil : ((load_catchments_gdf shape cs).filter
        (inBoundsRow boundsOf lon lat)).filter
        (fun r => contains r.geometry lon lat) = [] := by
      rw [List.filter_eq_nil_iff]
      intro a ha
      have hag := (List.mem_filter.mp ha).1
      simp [hall a hag]
    rw [find_catchment_for_point_eq, hnil]

/-- Witness for C7 on the rectangle fixture: the point `(5,5)` lies
strictly inside catchment `A` and outside catchment `B`, and the resolver
returns a containing record of minimal area. -/
theorem C7_resolver_polygon_match_witness :
    (∃ r ∈ load_catchments_gdf testShape [recA, recB],
        testContains r.geometry 5 5 = true)
    ∧ ∃ r ∈ load_catchments_gdf testShape [recA, recB],
        testContains r.geometry 5 5 = true
        ∧ find_catchment_for_point testShape testBoundsOf testContains
            [recA, recB] 5 5 = some r.orig
        ∧ ∀ r2 ∈ load_catchments_gdf testShape [recA, recB],
            testContains r2.geometry 5 5 = true →
              r.orig.A_km2 ≤ r2.orig.A_km2 :=
  ⟨by decide,
    (C7_resolver_polygon_match testShape testBoundsOf testContains
      testContains_sound [recA, recB] 5 5).1 (by decide)⟩

/-- **C8 (amended).** There is no bounding-box fallback pass: a record
lacking full polygon geometry is skipped by `load_catchments_gdf` and
never matched — removing it does not change the result, and when every
record lacks geometry the resolver returns `None` regardless of the
stored bounding boxes. -/
theorem C8_bbox_only_records_skipped {G S : Type} (shape : G → Option S)
    (boundsOf : S → Bounds) (contains : S → ℚ → ℚ → Bool)
    (c : GeoRecord G) (cs : List (GeoRecord G)) (lon lat : ℚ)
    (h : c.geometry = none) :
    find_catchment_for_point shape boundsOf contains (c :: cs) lon lat
      = find_catchment_for_point shape boundsOf contains cs lon lat
    ∧ ((∀ r ∈ c :: cs, r.geometry = none) →
        find_catchment_for_point shape boundsOf contains (c :: cs) lon lat
          = none) := by
  constructor
  · rw [find_catchment_for_point_eq, find_catchment_for_point_eq,
      load_catchments_gdf_cons_skip shape c cs (by rw [h]; rfl)]
  · intro hall
    rw [find_catchment_for_point_eq,
      load_catchments_gdf_eq_nil shape (c :: cs) hall]
    rfl

/-- Witness for C8 (amended) at the bounding-box-only fixture record. -/
theorem C8_bbox_only_records_skipped_witness :
    bboxOnlyRecord.geometry = none
    ∧ (find_catchment_for_point testShape testBoundsOf testContains
          [bboxOnlyRecord] 5 5
        = find_catchment_for_point testShape testBoundsOf testContains [] 5 5
      ∧ ((∀ r ∈ [bboxOnlyRecord], r.geometry = none) →
          find_catchment_for_point testShape testBoundsOf testContains
            [bboxOnlyRecord] 5 5 = none)) :=
  ⟨rfl, C8_bbox_only_records_skipped testShape testBoundsOf testContains
      bboxOnlyRecord [] 5 5 rfl⟩

/-- Counterexample to C8 as stated: a record carrying only a stored
bounding box `(0,0)–(10,10)` (no polygon geometry) is not matched by any
fallback — the point `(5,5)`, strictly inside that box, resolves to
`none`. -/
theorem C8_counterexample :
    bboxOnlyRecord.bounds = some ⟨0, 0, 10, 10⟩
    ∧ (0 : ℚ) < 5 ∧ (5 : ℚ) < 10
    ∧ find_catchment_for_point testShape testBoundsOf testContains
        [bboxOnlyRecord] 5 5 = none :=
  ⟨rfl, by norm_num, by norm_num, rfl⟩

/-- **C9.** A record with missing or malformed geometry is skipped:
resolution over the remaining records proceeds exactly as if the bad
record were absent, so one bad record never aborts the lookup. -/
theorem C9_bad_geometry_skipped {G S : Type} (shape : G → Option S)
    (boundsOf : S → Bounds) (contains : S → ℚ → ℚ → Bool)
    (c : GeoRecord G) (cs : List (GeoRecord G)) (lon lat : ℚ)
    (h : c.geometry.bind shape = none) :
    find_catchment_for_point shape boundsOf contains (c :: cs) lon lat
      = find_catchment_for_point shape boundsOf contains cs lon lat := by
  rw [find_catchment_for_point_eq, find_catchment_for_point_eq,
    load_catchments_gdf_cons_skip shape c cs h]

/-- Witness for C9: a malformed-geometry record in front of valid records
leaves the resolution unchanged. -/
theorem C9_bad_geometry_skipped_witness :
    malformedRecord.geometry.bind testShape = none
    ∧ find_catchment_for_point testShape testBoundsOf testContains
        [malformedRecord, recA] 5 5
      = find_catchment_for_point testShape testBoundsOf testContains
        [recA] 5 5 :=
  ⟨rfl, C9_bad_geometry_skipped testShape testBoundsOf testContains
      malformedRecord [recA] 5 5 rfl⟩

end UrbanFlooding
